import Mathlib

/-!
Verification of the packet classification and accounting core
(`bpf_progs/netd.c` and `bpf_progs/dscpPolicy.c`) against its
natural-language specification.  The source is shallowly embedded:
BPF maps become Lean functions into `Option`, machine integers become
`Nat` (the arithmetic involved never overflows the source's 64-bit
counters), and the per-packet entry points become pure state-passing
functions.
-/

namespace Netd

/-! ### Constants from netd.c and its shared headers -/

/-- cgroup bpf filter verdict values (netd.c lines 37-39). -/
def BPF_DROP_UNLESS_DNS : Nat := 2

def BPF_PASS : Nat := 1

def BPF_DROP : Nat := 0

/-- direction values (netd.c lines 45-46). -/
def BPF_EGRESS : Nat := 0

def BPF_INGRESS : Nat := 1

/-- Ethertype of IPv4, as carried in skb.protocol (network order collapsed:
both sides of every source comparison go through htons, so the raw value is
modelled). -/
def ETH_P_IP : Nat := 0x0800

def ETH_P_IPV6 : Nat := 0x86DD

def IPPROTO_ESP : Nat := 50

def IPPROTO_TCP : Nat := 6

/-- netd.c line 86: AID_APP_START == 10000. -/
def AID_APP_START : Nat := 10000

/-- uid of the clat daemon (android_filesystem_config.h). -/
def AID_CLAT : Nat := 1029

/-- uid of the platform DNS resolver (android_filesystem_config.h). -/
def AID_DNS : Nat := 1051

/-- netd.c line 295. -/
def TAG_SYSTEM_DNS : Nat := 0xFFFFFF82

/-- UidOwnerMatchType bits (bpf_shared.h): one distinct bit per restriction
category, exact positions immaterial to the logic. -/
def HAPPY_BOX_MATCH : Nat := 1

def DOZABLE_MATCH : Nat := 2

def STANDBY_MATCH : Nat := 4

def POWERSAVE_MATCH : Nat := 8

def PENALTY_BOX_MATCH : Nat := 16

def RESTRICTED_MATCH : Nat := 32

def LOW_POWER_STANDBY_MATCH : Nat := 64

def IIF_MATCH : Nat := 128

def LOCKDOWN_VPN_MATCH : Nat := 256

def OEM_DENY_1_MATCH : Nat := 512

def OEM_DENY_2_MATCH : Nat := 1024

def OEM_DENY_3_MATCH : Nat := 2048

/-- Configuration map slot indices (bpf_shared.h); two distinct array keys. -/
def UID_RULES_CONFIGURATION_KEY : Nat := 0

def CURRENT_STATS_MAP_CONFIGURATION_KEY : Nat := 1

/-- netd.c line 197-198: missing configuration entry means everything
disabled. -/
def DEFAULT_CONFIG : Nat := 0

def SELECT_MAP_A : Nat := 0

def SELECT_MAP_B : Nat := 1

/-! ### skb model

The source reads from a packet only: skb.protocol (ethertype), skb.len,
skb.ifindex, and single bytes via bpf_skb_load_bytes, which fails exactly
when the requested byte lies beyond the captured length. -/

structure SkBuff where
  protocol : Nat
  len : Nat
  ifindex : Nat
  byteAt : Nat → Nat

/-- bpf_skb_load_bytes of one byte: none models a nonzero return code. -/
def loadByte (skb : SkBuff) (off : Nat) : Option Nat :=
  if off + 1 ≤ skb.len then some (skb.byteAt off) else none

/-- netd.c line 84-88. -/
def is_system_uid (uid : Nat) : Prop := uid < AID_APP_START

instance (uid : Nat) : Decidable (is_system_uid uid) := by
  unfold is_system_uid
  exact inferInstance

/-! ### DEFINE_UPDATE_STATS (netd.c lines 117-147) -/

/-- The GSO/MTU packetization correction inside DEFINE_UPDATE_STATS
(netd.c lines 127-138).  Returns (packets, bytes). -/
def mtuAdjust (is_ipv6 : Bool) (len : Nat) : Nat × Nat :=
  let mtu := 1500
  if len > mtu then
    let ip_overhead := if is_ipv6 then 40 else 20
    let tcp_overhead := ip_overhead + 20 + 12
    let mss := mtu - tcp_overhead
    let payload := len - tcp_overhead
    let packets := (payload + mss - 1) / mss
    (packets, tcp_overhead * packets + payload)
  else (1, len)

structure StatsValue where
  rxBytes : Nat
  rxPackets : Nat
  txBytes : Nat
  txPackets : Nat
deriving DecidableEq

def StatsValue.zero : StatsValue := ⟨0, 0, 0, 0⟩

/-- The body of DEFINE_UPDATE_STATS, generic over the key type as the C
macro is: get-or-create the entry, then add the MTU-corrected byte and
packet counts to the direction's counters. -/
def update_stats {κ : Type} [DecidableEq κ] (m : κ → Option StatsValue)
    (is_ipv6 : Bool) (len : Nat) (direction : Nat) (key : κ) :
    κ → Option StatsValue :=
  let v := (m key).getD StatsValue.zero
  let pb := mtuAdjust is_ipv6 len
  let v' :=
    if direction = BPF_EGRESS then
      { v with txPackets := v.txPackets + pb.1, txBytes := v.txBytes + pb.2 }
    else if direction = BPF_INGRESS then
      { v with rxPackets := v.rxPackets + pb.1, rxBytes := v.rxBytes + pb.2 }
    else v
  fun k => if k = key then some v' else m k

/-! ### skip_owner_match (netd.c lines 154-191) -/

/-- netd.c lines 154-191.  The low nibble of byte 0 is the IPv4 IHL; the
return code of that load is overwritten by the source before being checked,
and the load is in bounds whenever the protocol load at offset 9 succeeded,
so the value read is used directly. -/
def skip_owner_match (skb : SkBuff) : Bool :=
  if skb.protocol = ETH_P_IP then
    match loadByte skb 9 with
    | none => false
    | some proto =>
      if proto = IPPROTO_ESP then true
      else if proto = IPPROTO_TCP then
        let ihl := ((loadByte skb 0).getD 0) % 16
        match loadByte skb (ihl * 4 + 13) with
        | none => false
        | some flag => (flag / 4) % 2 = 1
      else false
  else if skb.protocol = ETH_P_IPV6 then
    match loadByte skb 6 with
    | none => false
    | some proto =>
      if proto = IPPROTO_ESP then true
      else if proto = IPPROTO_TCP then
        match loadByte skb (40 + 13) with
        | none => false
        | some flag => (flag / 4) % 2 = 1
      else false
  else false

/-! ### getConfig and bpf_owner_match (netd.c lines 193-254) -/

/-- netd.c lines 193-201: a missing entry yields DEFAULT_CONFIG. -/
def getConfig (configuration_map : Nat → Option Nat) (configKey : Nat) : Nat :=
  (configuration_map configKey).getD DEFAULT_CONFIG

structure UidOwnerValue where
  iif : Nat
  rule : Nat
deriving DecidableEq

/-- netd.c line 211. -/
def uidRulesOf (uidEntry : Option UidOwnerValue) : Nat :=
  match uidEntry with
  | some e => e.rule
  | none => 0

/-- netd.c line 212. -/
def allowedIifOf (uidEntry : Option UidOwnerValue) : Nat :=
  match uidEntry with
  | some e => e.iif
  | none => 0

/-- netd.c lines 240-252: the ingress interface / lockdown-VPN tail of
bpf_owner_match. -/
def iif_section (skb : SkBuff) (uidRules allowed_iif direction : Nat) : Nat :=
  if direction = BPF_INGRESS ∧ skb.ifindex ≠ 1 then
    if uidRules &&& IIF_MATCH ≠ 0 then
      if allowed_iif ≠ 0 ∧ skb.ifindex ≠ allowed_iif then BPF_DROP_UNLESS_DNS
      else BPF_PASS
    else if uidRules &&& LOCKDOWN_VPN_MATCH ≠ 0 then BPF_DROP_UNLESS_DNS
    else BPF_PASS
  else BPF_PASS

/-- netd.c lines 203-254, with the two map lookups passed in. -/
def bpf_owner_match (skb : SkBuff) (uid : Nat)
    (configuration_map : Nat → Option Nat)
    (uidEntry : Option UidOwnerValue) (direction : Nat) : Nat :=
  if skip_owner_match skb then BPF_PASS
  else if is_system_uid uid then BPF_PASS
  else
    let enabledRules := getConfig configuration_map UID_RULES_CONFIGURATION_KEY
    let uidRules := uidRulesOf uidEntry
    let allowed_iif := allowedIifOf uidEntry
    if enabledRules ≠ 0 then
      if enabledRules &&& DOZABLE_MATCH ≠ 0 ∧ uidRules &&& DOZABLE_MATCH = 0 then BPF_DROP
      else if enabledRules &&& STANDBY_MATCH ≠ 0 ∧ uidRules &&& STANDBY_MATCH ≠ 0 then BPF_DROP
      else if enabledRules &&& POWERSAVE_MATCH ≠ 0 ∧ uidRules &&& POWERSAVE_MATCH = 0 then BPF_DROP
      else if enabledRules &&& RESTRICTED_MATCH ≠ 0 ∧ uidRules &&& RESTRICTED_MATCH = 0 then BPF_DROP
      else if enabledRules &&& LOW_POWER_STANDBY_MATCH ≠ 0 ∧ uidRules &&& LOW_POWER_STANDBY_MATCH = 0 then BPF_DROP
      else if enabledRules &&& OEM_DENY_1_MATCH ≠ 0 ∧ uidRules &&& OEM_DENY_1_MATCH ≠ 0 then BPF_DROP
      else if enabledRules &&& OEM_DENY_2_MATCH ≠ 0 ∧ uidRules &&& OEM_DENY_2_MATCH ≠ 0 then BPF_DROP
      else if enabledRules &&& OEM_DENY_3_MATCH ≠ 0 ∧ uidRules &&& OEM_DENY_3_MATCH ≠ 0 then BPF_DROP
      else iif_section skb uidRules allowed_iif direction
    else iif_section skb uidRules allowed_iif direction

/-! ### bpf_traffic_account (netd.c lines 256-328) -/

structure UidTagValue where
  uid : Nat
  tag : Nat
deriving DecidableEq

structure StatsKey where
  uid : Nat
  tag : Nat
  counterSet : Nat
  ifaceIndex : Nat
deriving DecidableEq

/-- The mutable statistics tables touched by the accounting path. -/
structure NetdState where
  stats_map_A : StatsKey → Option StatsValue
  stats_map_B : StatsKey → Option StatsValue
  app_uid_stats_map : Nat → Option StatsValue
  iface_stats_map : Nat → Option StatsValue

/-- netd.c lines 256-263. -/
def update_stats_with_config (skb : SkBuff) (direction : Nat) (key : StatsKey)
    (selectedMap : Nat) (st : NetdState) : NetdState :=
  if selectedMap = SELECT_MAP_A then
    { st with stats_map_A :=
        (update_stats st.stats_map_A (skb.protocol = ETH_P_IPV6) skb.len direction key) }
  else if selectedMap = SELECT_MAP_B then
    { st with stats_map_B :=
        (update_stats st.stats_map_B (skb.protocol = ETH_P_IPV6) skb.len direction key) }
  else st

/-- netd.c lines 292-301: resolve BPF_DROP_UNLESS_DNS and possibly swap the
accounted uid back to the socket uid.  Returns (uid, verdict). -/
def resolve_dns_exempt (tag uid sock_uid verdict : Nat) : Nat × Nat :=
  if tag = TAG_SYSTEM_DNS ∧ uid = AID_DNS then
    (sock_uid, if verdict = BPF_DROP_UNLESS_DNS then BPF_PASS else verdict)
  else
    (uid, if verdict = BPF_DROP_UNLESS_DNS then BPF_DROP else verdict)

/-- netd.c lines 270-276: the accounted uid, from the cookie tag entry when
present, else the socket uid. -/
def cookieUid (sock_uid : Nat) (cookie_tag : Option UidTagValue) : Nat :=
  match cookie_tag with
  | some u => u.uid
  | none => sock_uid

/-- netd.c lines 270-276: the accounted tag, 0 when the cookie is untagged. -/
def cookieTag (cookie_tag : Option UidTagValue) : Nat :=
  match cookie_tag with
  | some u => u.tag
  | none => 0

/-- netd.c lines 265-328, with every read-only map lookup passed in and the
four mutable stats tables threaded as state.  Returns (verdict, state). -/
def bpf_traffic_account (skb : SkBuff) (direction sock_uid : Nat)
    (cookie_tag : Option UidTagValue)
    (configuration_map : Nat → Option Nat)
    (uid_owner_map : Nat → Option UidOwnerValue)
    (uid_counterset_map : Nat → Option Nat)
    (st : NetdState) : Nat × NetdState :=
  let uid := cookieUid sock_uid cookie_tag
  let tag := cookieTag cookie_tag
  if sock_uid = AID_CLAT ∨ uid = AID_CLAT then (BPF_PASS, st)
  else
    let verdict := bpf_owner_match skb sock_uid configuration_map (uid_owner_map sock_uid) direction
    if direction = BPF_EGRESS ∧ verdict = BPF_DROP then (verdict, st)
    else
      let r := resolve_dns_exempt tag uid sock_uid verdict
      let counterSet := (uid_counterset_map r.1).getD 0
      let key : StatsKey := ⟨r.1, tag, counterSet, skb.ifindex⟩
      match configuration_map CURRENT_STATS_MAP_CONFIGURATION_KEY with
      | none => (r.2 &&& 1, st)
      | some selectedMap =>
        let st1 := if key.tag ≠ 0 then update_stats_with_config skb direction key selectedMap st else st
        let st2 := update_stats_with_config skb direction { key with tag := 0 } selectedMap st1
        let st3 := { st2 with app_uid_stats_map :=
            (update_stats st2.app_uid_stats_map (skb.protocol = ETH_P_IPV6) skb.len direction r.1) }
        (r.2 &&& 1, st3)

/-! ### Predicates used to state the claims about bpf_owner_match -/

/-- The restriction-category drop condition: an allow-list-style category
(doze, power-save, restricted, low-power-standby) enabled globally while
the owner lacks its bit, or a deny-list-style category (standby, the three
OEM deny lists) enabled globally while the owner has its bit. -/
def dropCondition (enabledRules uidRules : Nat) : Prop :=
  (enabledRules &&& DOZABLE_MATCH ≠ 0 ∧ uidRules &&& DOZABLE_MATCH = 0) ∨
  (enabledRules &&& STANDBY_MATCH ≠ 0 ∧ uidRules &&& STANDBY_MATCH ≠ 0) ∨
  (enabledRules &&& POWERSAVE_MATCH ≠ 0 ∧ uidRules &&& POWERSAVE_MATCH = 0) ∨
  (enabledRules &&& RESTRICTED_MATCH ≠ 0 ∧ uidRules &&& RESTRICTED_MATCH = 0) ∨
  (enabledRules &&& LOW_POWER_STANDBY_MATCH ≠ 0 ∧ uidRules &&& LOW_POWER_STANDBY_MATCH = 0) ∨
  (enabledRules &&& OEM_DENY_1_MATCH ≠ 0 ∧ uidRules &&& OEM_DENY_1_MATCH ≠ 0) ∨
  (enabledRules &&& OEM_DENY_2_MATCH ≠ 0 ∧ uidRules &&& OEM_DENY_2_MATCH ≠ 0) ∨
  (enabledRules &&& OEM_DENY_3_MATCH ≠ 0 ∧ uidRules &&& OEM_DENY_3_MATCH ≠ 0)

instance (e u : Nat) : Decidable (dropCondition e u) := by
  unfold dropCondition
  exact inferInstance

/-- The condition under which the ingress-interface / lockdown-VPN tail of
bpf_owner_match produces BPF_DROP_UNLESS_DNS rather than BPF_PASS. -/
def iifApplies (skb : SkBuff) (uidRules allowed_iif direction : Nat) : Prop :=
  direction = BPF_INGRESS ∧ skb.ifindex ≠ 1 ∧
    ((uidRules &&& IIF_MATCH ≠ 0 ∧ allowed_iif ≠ 0 ∧ skb.ifindex ≠ allowed_iif) ∨
      (uidRules &&& IIF_MATCH = 0 ∧ uidRules &&& LOCKDOWN_VPN_MATCH ≠ 0))

instance (skb : SkBuff) (u a d : Nat) : Decidable (iifApplies skb u a d) := by
  unfold iifApplies
  exact inferInstance

/-- The packet is an ESP packet, or a TCP segment whose RST flag bit is
set, as read by skip_owner_match. -/
def isEspOrTcpRst (skb : SkBuff) : Prop :=
  (skb.protocol = ETH_P_IP ∧ loadByte skb 9 = some IPPROTO_ESP) ∨
  (skb.protocol = ETH_P_IPV6 ∧ loadByte skb 6 = some IPPROTO_ESP) ∨
  (skb.protocol = ETH_P_IP ∧ loadByte skb 9 = some IPPROTO_TCP ∧
    ∃ flag, loadByte skb ((((loadByte skb 0).getD 0) % 16) * 4 + 13) = some flag ∧
      (flag / 4) % 2 = 1) ∨
  (skb.protocol = ETH_P_IPV6 ∧ loadByte skb 6 = some IPPROTO_TCP ∧
    ∃ flag, loadByte skb 53 = some flag ∧ (flag / 4) % 2 = 1)

end Netd

namespace Dscp

/-! ### Constants from dscpPolicy.c and dscpPolicy.h -/

def IPPROTO_UDP : Nat := 17

def IPPROTO_UDPLITE : Nat := 136

def IPPROTO_TCP : Nat := 6

/-- Present-field flags of a DscpPolicy (dscpPolicy.h): distinct single
bits. -/
def SRC_IP_MASK_FLAG : Nat := 1

def DST_IP_MASK_FLAG : Nat := 2

def SRC_PORT_MASK_FLAG : Nat := 4

def DST_PORT_MASK_FLAG : Nat := 8

def PROTO_MASK_FLAG : Nat := 16

/-! ### Data model

Addresses are the 128-bit in6_addr values compared with v6_equal, modelled
as naturals; an IPv4 address is stored v4-mapped.  Ports appear on both
sides of every source comparison through one byte swap each (ntohs on the
packet side, htons on the rule side), so raw values are modelled. -/

/-- The per-packet values extracted by match_policy and compared against
rules and cache entries. -/
structure FlowTuple where
  src_ip : Nat
  dst_ip : Nat
  sport : Nat
  dport : Nat
  protocol : Nat
  ifindex : Nat
deriving DecidableEq

/-- One slot of ipv4_dscp_policies_map / ipv6_dscp_policies_map. -/
structure DscpPolicy where
  src_ip : Nat
  dst_ip : Nat
  ifindex : Nat
  src_port : Nat
  dst_port_start : Nat
  dst_port_end : Nat
  proto : Nat
  dscp_val : Nat
  present_fields : Nat
deriving DecidableEq

/-- One cached decision in a socket_to_policies map. -/
structure RuleEntry where
  src_ip : Nat
  dst_ip : Nat
  ifindex : Nat
  src_port : Nat
  dst_port : Nat
  proto : Nat
  dscp_val : Nat
deriving DecidableEq

/-- v4-mapped form built at dscpPolicy.c lines 98-104: bytes 10-11 are 0xff
and the low 32 bits carry the IPv4 address. -/
def v4Mapped (addr : Nat) : Nat := 0xffff * 2 ^ 32 + addr % 2 ^ 32

/-! ### The scoring scan (dscpPolicy.c lines 175-228) -/

/-- The five field checks of one loop iteration (dscpPolicy.c lines
197-222): returns (score, temp_mask). -/
def scoreAndMask (policy : DscpPolicy) (t : FlowTuple) : Nat × Nat :=
  let a1 :=
    if policy.present_fields &&& SRC_IP_MASK_FLAG = SRC_IP_MASK_FLAG ∧ t.src_ip = policy.src_ip
    then (1, SRC_IP_MASK_FLAG) else ((0 : Nat), (0 : Nat))
  let a2 :=
    if policy.present_fields &&& DST_IP_MASK_FLAG = DST_IP_MASK_FLAG ∧ t.dst_ip = policy.dst_ip
    then (a1.1 + 1, a1.2 ||| DST_IP_MASK_FLAG) else a1
  let a3 :=
    if policy.present_fields &&& SRC_PORT_MASK_FLAG = SRC_PORT_MASK_FLAG ∧ t.sport = policy.src_port
    then (a2.1 + 1, a2.2 ||| SRC_PORT_MASK_FLAG) else a2
  let a4 :=
    if policy.present_fields &&& DST_PORT_MASK_FLAG = DST_PORT_MASK_FLAG ∧
        policy.dst_port_start ≤ t.dport ∧ t.dport ≤ policy.dst_port_end
    then (a3.1 + 1, a3.2 ||| DST_PORT_MASK_FLAG) else a3
  let a5 :=
    if policy.present_fields &&& PROTO_MASK_FLAG = PROTO_MASK_FLAG ∧ t.protocol = policy.proto
    then (a4.1 + 1, a4.2 ||| PROTO_MASK_FLAG) else a4
  a5

/-- One iteration of the policy scan loop (dscpPolicy.c lines 179-228):
fold the accumulator (best_score, best_match) over slot i. -/
def scanStep (t : FlowTuple) (acc : Int × Nat) (i : Nat) :
    Option DscpPolicy → Int × Nat
  | none => acc
  | some policy =>
    if policy.present_fields = 0 ∨ policy.ifindex ≠ t.ifindex then acc
    else
      if ((scoreAndMask policy t).1 : Int) > acc.1 ∧
          (scoreAndMask policy t).2 = policy.present_fields then
        (((scoreAndMask policy t).1 : Int), i)
      else acc

/-- The scan over slots 0..n-1 in increasing order, starting from
best_score = -1, best_match = 0. -/
def scanAux (tbl : Nat → Option DscpPolicy) (t : FlowTuple) : Nat → Int × Nat
  | 0 => (-1, 0)
  | n + 1 => scanStep t (scanAux tbl t n) n (tbl n)

/-- The scan result as used at dscpPolicy.c line 234: a selected slot index
only when best_score ended strictly positive. -/
def match_policy_scan (tbl : Nat → Option DscpPolicy) (n : Nat)
    (t : FlowTuple) : Option Nat :=
  let r := scanAux tbl t n
  if r.1 > 0 then some r.2 else none

/-- Eligibility of a policy for a tuple, read off the source conditions: it
was not skipped at line 195 and its matched-field mask equals its declared
present_fields (line 224). -/
def eligiblePolicy (policy : DscpPolicy) (t : FlowTuple) : Prop :=
  policy.present_fields ≠ 0 ∧ policy.ifindex = t.ifindex ∧
    (scoreAndMask policy t).2 = policy.present_fields

instance (policy : DscpPolicy) (t : FlowTuple) : Decidable (eligiblePolicy policy t) := by
  unfold eligiblePolicy
  exact inferInstance

def eligibleRule (tbl : Nat → Option DscpPolicy) (t : FlowTuple) (j : Nat) : Prop :=
  ∃ policy, tbl j = some policy ∧ eligiblePolicy policy t

/-- The internally computed score of slot j (0 for an empty slot). -/
def scoreOf (tbl : Nat → Option DscpPolicy) (t : FlowTuple) (j : Nat) : Nat :=
  match tbl j with
  | some policy => (scoreAndMask policy t).1
  | none => 0

/-- Invariant of the scan loop after visiting slots 0..n-1: either nothing
eligible has been seen and best_score is still -1, or best_match is the
lowest-index eligible slot of maximal score among those visited and
best_score is its score. -/
def scanInv (tbl : Nat → Option DscpPolicy) (t : FlowTuple) (n : Nat) : Prop :=
  ((scanAux tbl t n).1 = -1 ∧ ∀ j, j < n → ¬ eligibleRule tbl t j) ∨
  ((scanAux tbl t n).2 < n ∧ eligibleRule tbl t (scanAux tbl t n).2 ∧
    (scanAux tbl t n).1 = (scoreOf tbl t (scanAux tbl t n).2 : Int) ∧
    (∀ j, j < n → eligibleRule tbl t j →
      scoreOf tbl t j ≤ scoreOf tbl t (scanAux tbl t n).2) ∧
    (∀ j, j < n → eligibleRule tbl t j →
      scoreOf tbl t j = scoreOf tbl t (scanAux tbl t n).2 →
      (scanAux tbl t n).2 ≤ j))

/-! ### The flow cache check (dscpPolicy.c lines 142-173) -/

/-- The revalidation of a cached entry against the packet (dscpPolicy.c
lines 157-160): every field of the stored tuple must equal the packet's. -/
abbrev cacheMatches (e : RuleEntry) (t : FlowTuple) : Prop :=
  e.src_ip = t.src_ip ∧ e.dst_ip = t.dst_ip ∧ t.ifindex = e.ifindex ∧
    t.sport = e.src_port ∧ t.dport = e.dst_port ∧ t.protocol = e.proto

/-- The dscp value the full table scan would apply (dscpPolicy.c lines
234-250): the selected policy's dscp_val, defaulting to 0 if the re-lookup
of the selected slot fails. -/
def full_match_dscp (tbl : Nat → Option DscpPolicy) (n : Nat)
    (t : FlowTuple) : Option Nat :=
  match match_policy_scan tbl n t with
  | some i =>
    match tbl i with
    | some policy => some policy.dscp_val
    | none => some 0
  | none => none

/-- The decision path of match_policy after extraction (dscpPolicy.c lines
142-252): on a cache hit apply the cached dscp value, otherwise run the
full table scan. -/
def match_policy_decision (cached : Option RuleEntry)
    (tbl : Nat → Option DscpPolicy) (n : Nat) (t : FlowTuple) : Option Nat :=
  match cached with
  | some e => if cacheMatches e t then some e.dscp_val else full_match_dscp tbl n t
  | none => full_match_dscp tbl n t

/-! ### The packet field extractor (dscpPolicy.c lines 56-140) -/

/-- The header fields of a captured frame as the extractor reads them:
len is data_end - data; version/ihl/tos/protocol and the addresses are the
raw L3 fields; sport/dport the transport ports.  Field values beyond the
captured length are never consulted because every read in the source is
preceded by a bounds check. -/
structure PacketData where
  len : Nat
  version : Nat
  ihl : Nat
  tos : Nat
  priority : Nat
  flow_lbl : Nat
  protocol : Nat
  saddr : Nat
  daddr : Nat
  saddr6 : Nat
  daddr6 : Nat
  sport : Nat
  dport : Nat
deriving DecidableEq

inductive ExtractResult where
  | malformed
  | notApplicable
  | extracted (t : FlowTuple)
deriving DecidableEq

/-- The transport switch (dscpPolicy.c lines 122-140). -/
def extract_l4 (pkt : PacketData) (hdr_size src_ip dst_ip ifindex : Nat) :
    ExtractResult :=
  if pkt.protocol = IPPROTO_UDP ∨ pkt.protocol = IPPROTO_UDPLITE then
    if pkt.len < hdr_size + 8 then ExtractResult.malformed
    else ExtractResult.extracted ⟨src_ip, dst_ip, pkt.sport, pkt.dport, pkt.protocol, ifindex⟩
  else if pkt.protocol = IPPROTO_TCP then
    if pkt.len < hdr_size + 20 then ExtractResult.malformed
    else ExtractResult.extracted ⟨src_ip, dst_ip, pkt.sport, pkt.dport, pkt.protocol, ifindex⟩
  else ExtractResult.notApplicable

/-- The parsing front of match_policy (dscpPolicy.c lines 56-140): bounds
checks, version check, IPv4 option rejection, v4-mapped normalization, then
the transport switch. -/
def extract (pkt : PacketData) (ipv4 is_eth : Bool) (ifindex : Nat) :
    ExtractResult :=
  let l2_header_size := if is_eth then 14 else 0
  if pkt.len < l2_header_size then ExtractResult.malformed
  else
    if ipv4 then
      let hdr_size := l2_header_size + 20
      if pkt.len < hdr_size then ExtractResult.malformed
      else if pkt.version ≠ 4 then ExtractResult.malformed
      else if pkt.ihl ≠ 5 then ExtractResult.malformed
      else extract_l4 pkt hdr_size (v4Mapped pkt.saddr) (v4Mapped pkt.daddr) ifindex
    else
      let hdr_size := l2_header_size + 40
      if pkt.len < hdr_size then ExtractResult.malformed
      else if pkt.version ≠ 6 then ExtractResult.malformed
      else extract_l4 pkt hdr_size pkt.saddr6 pkt.daddr6 ifindex

/-- The combined L3 header size in front of the transport header. -/
def hdrSize (ipv4 is_eth : Bool) : Nat :=
  (if is_eth then 14 else 0) + (if ipv4 then 20 else 40)

/-- The link and network headers fit and are of the declared shape. -/
def l3_ok (pkt : PacketData) (ipv4 is_eth : Bool) : Prop :=
  (if is_eth then 14 else 0) ≤ pkt.len ∧
    (if ipv4 then hdrSize ipv4 is_eth ≤ pkt.len ∧ pkt.version = 4 ∧ pkt.ihl = 5
     else hdrSize ipv4 is_eth ≤ pkt.len ∧ pkt.version = 6)

instance (pkt : PacketData) (ipv4 is_eth : Bool) : Decidable (l3_ok pkt ipv4 is_eth) := by
  unfold l3_ok
  exact inferInstance

/-- The conditions under which the spec declares a packet malformed: a
header that does not fit, an IP version that mismatches the declared
family, or IPv4 options; including a truncated transport header of a
supported transport. -/
def malformedCond (pkt : PacketData) (ipv4 is_eth : Bool) : Prop :=
  ¬ l3_ok pkt ipv4 is_eth ∨
    (l3_ok pkt ipv4 is_eth ∧
      (((pkt.protocol = IPPROTO_UDP ∨ pkt.protocol = IPPROTO_UDPLITE) ∧
          pkt.len < hdrSize ipv4 is_eth + 8) ∨
        (pkt.protocol = IPPROTO_TCP ∧ pkt.len < hdrSize ipv4 is_eth + 20)))

instance (pkt : PacketData) (ipv4 is_eth : Bool) : Decidable (malformedCond pkt ipv4 is_eth) := by
  unfold malformedCond
  exact inferInstance

end Dscp

/-! ### Concrete instances used by the witness theorems -/

/-- A 100-byte non-IP frame on interface 5: skip_owner_match is false. -/
def skbW : Netd.SkBuff := ⟨0, 100, 5, fun _ => 0⟩

/-- An IPv4 ESP packet: byte 9 (the protocol field) is 50. -/
def skbEspW : Netd.SkBuff := ⟨0x0800, 100, 5, fun off => if off = 9 then 50 else 0⟩

/-- Configuration with DOZABLE enabled and stats buffer A selected. -/
def cfgW : Nat → Option Nat := fun k => if k = 0 then some 2 else if k = 1 then some 0 else none

/-- Configuration with STANDBY enabled. -/
def cfgStandbyW : Nat → Option Nat := fun k => if k = 0 then some 4 else none

/-- Empty uid owner map. -/
def uomW : Nat → Option Netd.UidOwnerValue := fun _ => none

/-- Empty counter set map. -/
def ucmW : Nat → Option Nat := fun _ => none

/-- Empty statistics state. -/
def st0 : Netd.NetdState := ⟨fun _ => none, fun _ => none, fun _ => none, fun _ => none⟩

/-- A UDP flow tuple on interface 3. -/
def tW : Dscp.FlowTuple := ⟨100, 200, 10, 20, 17, 3⟩

/-- The same flow with a different destination port. -/
def t2W : Dscp.FlowTuple := ⟨100, 200, 10, 21, 17, 3⟩

/-- A policy declaring only src-ip, matching tW, dscp 7. -/
def ruleW : Dscp.DscpPolicy := ⟨100, 0, 3, 0, 0, 0, 0, 7, 1⟩

/-- A second policy with the identical predicate and score, dscp 9. -/
def ruleW2 : Dscp.DscpPolicy := ⟨100, 0, 3, 0, 0, 0, 0, 9, 1⟩

/-- A two-slot policy table holding the tied rules at indices 0 and 1. -/
def tblW : Nat → Option Dscp.DscpPolicy :=
  fun i => if i = 0 then some ruleW else if i = 1 then some ruleW2 else none

/-- A cached decision whose stored tuple is tW (so it mismatches t2W on the
destination port). -/
def entryW : Dscp.RuleEntry := ⟨100, 200, 3, 10, 20, 17, 7⟩

/-- A well-formed 100-byte IPv4 frame carrying an unsupported transport
(protocol 1, ICMP). -/
def pktW : Dscp.PacketData := ⟨100, 4, 5, 0, 0, 0, 1, 777, 888, 0, 0, 0, 0⟩

/-! ## Helper lemmas -/

/-- The ingress-interface tail returns BPF_DROP_UNLESS_DNS exactly when
iifApplies holds, and BPF_PASS otherwise. -/
theorem iif_section_spec (skb : Netd.SkBuff) (u a d : Nat) :
    Netd.iif_section skb u a d =
      (if Netd.iifApplies skb u a d then Netd.BPF_DROP_UNLESS_DNS else Netd.BPF_PASS) := by
  unfold Netd.iif_section Netd.iifApplies
  split_ifs <;> first | rfl | tauto

/-- For a non-exempt packet and a non-system uid, bpf_owner_match is the
restriction-category drop condition followed by the interface tail. -/
theorem bpf_owner_match_spec (skb : Netd.SkBuff) (uid : Nat)
    (cfg : Nat → Option Nat) (uidEntry : Option Netd.UidOwnerValue) (direction : Nat)
    (hskip : Netd.skip_owner_match skb = false) (hsys : ¬ Netd.is_system_uid uid) :
    Netd.bpf_owner_match skb uid cfg uidEntry direction =
      (if Netd.dropCondition (Netd.getConfig cfg Netd.UID_RULES_CONFIGURATION_KEY)
            (Netd.uidRulesOf uidEntry)
       then Netd.BPF_DROP
       else Netd.iif_section skb (Netd.uidRulesOf uidEntry) (Netd.allowedIifOf uidEntry) direction) := by
  simp only [Netd.bpf_owner_match, hskip, Bool.false_eq_true, if_false]
  rw [if_neg hsys]
  simp only [Netd.dropCondition]
  set e := Netd.getConfig cfg Netd.UID_RULES_CONFIGURATION_KEY with he
  set u := Netd.uidRulesOf uidEntry with hu
  by_cases h0 : e = 0
  · rw [if_neg (by omega), if_neg (by rw [h0]; simp [Nat.zero_and])]
  rw [if_pos h0]
  by_cases h1 : e &&& Netd.DOZABLE_MATCH ≠ 0 ∧ u &&& Netd.DOZABLE_MATCH = 0
  · rw [if_pos h1, if_pos (Or.inl h1)]
  rw [if_neg h1]
  by_cases h2 : e &&& Netd.STANDBY_MATCH ≠ 0 ∧ u &&& Netd.STANDBY_MATCH ≠ 0
  · rw [if_pos h2, if_pos (Or.inr (Or.inl h2))]
  rw [if_neg h2]
  by_cases h3 : e &&& Netd.POWERSAVE_MATCH ≠ 0 ∧ u &&& Netd.POWERSAVE_MATCH = 0
  · rw [if_pos h3, if_pos (Or.inr (Or.inr (Or.inl h3)))]
  rw [if_neg h3]
  by_cases h4 : e &&& Netd.RESTRICTED_MATCH ≠ 0 ∧ u &&& Netd.RESTRICTED_MATCH = 0
  · rw [if_pos h4, if_pos (Or.inr (Or.inr (Or.inr (Or.inl h4))))]
  rw [if_neg h4]
  by_cases h5 : e &&& Netd.LOW_POWER_STANDBY_MATCH ≠ 0 ∧ u &&& Netd.LOW_POWER_STANDBY_MATCH = 0
  · rw [if_pos h5, if_pos (Or.inr (Or.inr (Or.inr (Or.inr (Or.inl h5)))))]
  rw [if_neg h5]
  by_cases h6 : e &&& Netd.OEM_DENY_1_MATCH ≠ 0 ∧ u &&& Netd.OEM_DENY_1_MATCH ≠ 0
  · rw [if_pos h6, if_pos (Or.inr (Or.inr (Or.inr (Or.inr (Or.inr (Or.inl h6))))))]
  rw [if_neg h6]
  by_cases h7 : e &&& Netd.OEM_DENY_2_MATCH ≠ 0 ∧ u &&& Netd.OEM_DENY_2_MATCH ≠ 0
  · rw [if_pos h7, if_pos (Or.inr (Or.inr (Or.inr (Or.inr (Or.inr (Or.inr (Or.inl h7)))))))]
  rw [if_neg h7]
  by_cases h8 : e &&& Netd.OEM_DENY_3_MATCH ≠ 0 ∧ u &&& Netd.OEM_DENY_3_MATCH ≠ 0
  · rw [if_pos h8, if_pos (Or.inr (Or.inr (Or.inr (Or.inr (Or.inr (Or.inr (Or.inr h8)))))))]
  refine (if_neg h8).trans (if_neg fun hd => ?_).symm
  exact hd.elim h1 fun hd => hd.elim h2 fun hd => hd.elim h3 fun hd => hd.elim h4 fun hd =>
    hd.elim h5 fun hd => hd.elim h6 fun hd => hd.elim h7 h8

/-- isEspOrTcpRst implies the exemption taken at netd.c line 204. -/
theorem skip_of_espOrTcpRst (skb : Netd.SkBuff) (h : Netd.isEspOrTcpRst skb) :
    Netd.skip_owner_match skb = true := by
  unfold Netd.skip_owner_match
  rcases h with ⟨h1, h2⟩ | ⟨h1, h2⟩ | ⟨h1, h2, flag, h3, h4⟩ | ⟨h1, h2, flag, h3, h4⟩
  · simp [h1, h2, Netd.IPPROTO_ESP]
  · simp [h1, h2, Netd.ETH_P_IP, Netd.ETH_P_IPV6, Netd.IPPROTO_ESP]
  · simp [h1, h2, h3, h4, Netd.IPPROTO_ESP, Netd.IPPROTO_TCP]
  · simp [h1, h2, h3, h4, Netd.ETH_P_IP, Netd.ETH_P_IPV6, Netd.IPPROTO_ESP, Netd.IPPROTO_TCP]

/-- An eligible policy scores at least 1: its matched-field mask equals its
nonzero present_fields, so at least one check fired. -/
theorem eligible_score_pos (policy : Dscp.DscpPolicy) (t : Dscp.FlowTuple)
    (h1 : policy.present_fields ≠ 0)
    (h2 : (Dscp.scoreAndMask policy t).2 = policy.present_fields) :
    1 ≤ (Dscp.scoreAndMask policy t).1 := by
  simp only [Dscp.scoreAndMask] at h2 ⊢
  split_ifs at h2 ⊢ <;> simp_all

/-- Extending the scan invariant over a slot that neither updates the
accumulator nor is eligible. -/
theorem scanInv_extend (tbl : Nat → Option Dscp.DscpPolicy) (t : Dscp.FlowTuple) (n : Nat)
    (hacc : Dscp.scanAux tbl t (n + 1) = Dscp.scanAux tbl t n)
    (hnotel : ¬ Dscp.eligibleRule tbl t n)
    (ih : Dscp.scanInv tbl t n) : Dscp.scanInv tbl t (n + 1) := by
  unfold Dscp.scanInv at ih ⊢
  rw [hacc]
  rcases ih with ⟨h1, h2⟩ | ⟨h1, h2, h3, h4, h5⟩
  · refine Or.inl ⟨h1, fun j hj hel => ?_⟩
    rcases Nat.lt_succ_iff_lt_or_eq.mp hj with hj' | rfl
    · exact h2 j hj' hel
    · exact hnotel hel
  · refine Or.inr ⟨Nat.lt_succ_of_lt h1, h2, h3, fun j hj hel => ?_, fun j hj hel heq => ?_⟩
    · rcases Nat.lt_succ_iff_lt_or_eq.mp hj with hj' | rfl
      · exact h4 j hj' hel
      · exact absurd hel hnotel
    · rcases Nat.lt_succ_iff_lt_or_eq.mp hj with hj' | rfl
      · exact h5 j hj' hel heq
      · exact absurd hel hnotel

/-- The scan invariant holds after every prefix of the loop. -/
theorem scanInv_holds (tbl : Nat → Option Dscp.DscpPolicy) (t : Dscp.FlowTuple) :
    ∀ n : Nat, Dscp.scanInv tbl t n := by
  intro n
  induction n with
  | zero => exact Or.inl ⟨rfl, fun j hj => absurd hj (Nat.not_lt_zero j)⟩
  | succ n ih =>
    have hsucc : Dscp.scanAux tbl t (n + 1) =
        Dscp.scanStep t (Dscp.scanAux tbl t n) n (tbl n) := rfl
    rcases htbl : tbl n with _ | policy
    · refine scanInv_extend tbl t n ?_ ?_ ih
      · rw [hsucc, htbl]
        rfl
      · rintro ⟨p, hp, -⟩
        rw [htbl] at hp
        exact Option.noConfusion hp
    · by_cases hskipc : policy.present_fields = 0 ∨ policy.ifindex ≠ t.ifindex
      · refine scanInv_extend tbl t n ?_ ?_ ih
        · rw [hsucc, htbl]
          simp only [Dscp.scanStep]
          rw [if_pos hskipc]
        · rintro ⟨p, hp, he1, he2, -⟩
          rw [htbl] at hp
          cases hp
          rcases hskipc with hc | hc
          · exact he1 hc
          · exact hc he2
      · have hskipc' := hskipc
        push_neg at hskipc'
        have helig : Dscp.eligiblePolicy policy t → Dscp.eligibleRule tbl t n :=
          fun he => ⟨policy, htbl, he⟩
        have hscore : Dscp.scoreOf tbl t n = (Dscp.scoreAndMask policy t).1 := by
          unfold Dscp.scoreOf
          rw [htbl]
        by_cases hupd : ((Dscp.scoreAndMask policy t).1 : Int) > (Dscp.scanAux tbl t n).1 ∧
            (Dscp.scoreAndMask policy t).2 = policy.present_fields
        · -- the accumulator is updated to (score, n)
          have hstep : Dscp.scanAux tbl t (n + 1) = (((Dscp.scoreAndMask policy t).1 : Int), n) := by
            rw [hsucc, htbl]
            simp only [Dscp.scanStep]
            rw [if_neg hskipc, if_pos hupd]
          have heln : Dscp.eligibleRule tbl t n :=
            helig ⟨hskipc'.1, hskipc'.2, hupd.2⟩
          unfold Dscp.scanInv
          rw [hstep]
          refine Or.inr ⟨Nat.lt_succ_self n, heln, by rw [hscore], ?_, ?_⟩
          · intro j hj hel
            rcases Nat.lt_succ_iff_lt_or_eq.mp hj with hj' | hj'
            · rcases ih with ⟨-, h2⟩ | ⟨-, -, h3, h4, -⟩
              · exact absurd hel (h2 j hj')
              · have hle := h4 j hj' hel
                have hgt := hupd.1
                rw [h3] at hgt
                rw [hscore]
                omega
            · rw [hj', hscore]
          · intro j hj hel heq
            rcases Nat.lt_succ_iff_lt_or_eq.mp hj with hj' | hj'
            · rcases ih with ⟨-, h2⟩ | ⟨-, -, h3, h4, -⟩
              · exact absurd hel (h2 j hj')
              · have hle := h4 j hj' hel
                have hgt := hupd.1
                rw [h3] at hgt
                rw [hscore] at heq
                omega
            · rw [hj']
        · -- the accumulator is unchanged
          have hstep : Dscp.scanAux tbl t (n + 1) = Dscp.scanAux tbl t n := by
            rw [hsucc, htbl]
            simp only [Dscp.scanStep]
            rw [if_neg hskipc, if_neg hupd]
          by_cases hmask : (Dscp.scoreAndMask policy t).2 = policy.present_fields
          · -- slot n is eligible but does not beat the best score
            have heln : Dscp.eligibleRule tbl t n := helig ⟨hskipc'.1, hskipc'.2, hmask⟩
            have hpos := eligible_score_pos policy t hskipc'.1 hmask
            rcases ih with ⟨h1, -⟩ | ⟨h1, h2, h3, h4, h5⟩
            · exfalso
              apply hupd
              refine ⟨?_, hmask⟩
              rw [h1]
              omega
            · unfold Dscp.scanInv
              rw [hstep]
              refine Or.inr ⟨Nat.lt_succ_of_lt h1, h2, h3, fun j hj hel => ?_,
                fun j hj hel heq => ?_⟩
              · rcases Nat.lt_succ_iff_lt_or_eq.mp hj with hj' | hj'
                · exact h4 j hj' hel
                · have hnotgt : ¬ ((Dscp.scoreAndMask policy t).1 : Int) >
                      (Dscp.scanAux tbl t n).1 := fun hgt => hupd ⟨hgt, hmask⟩
                  rw [h3] at hnotgt
                  rw [hj', hscore]
                  omega
              · rcases Nat.lt_succ_iff_lt_or_eq.mp hj with hj' | hj'
                · exact h5 j hj' hel heq
                · rw [hj']
                  exact Nat.le_of_lt h1
          · -- slot n only partially matches: not eligible
            refine scanInv_extend tbl t n hstep ?_ ih
            rintro ⟨p, hp, -, -, he3⟩
            rw [htbl] at hp
            cases hp
            exact hmask he3

/-- Unpacking a successful scan result. -/
theorem match_policy_scan_some (tbl : Nat → Option Dscp.DscpPolicy) (n : Nat)
    (t : Dscp.FlowTuple) (i : Nat) (h : Dscp.match_policy_scan tbl n t = some i) :
    (Dscp.scanAux tbl t n).1 > 0 ∧ (Dscp.scanAux tbl t n).2 = i := by
  unfold Dscp.match_policy_scan at h
  by_cases hpos : (Dscp.scanAux tbl t n).1 > 0
  · simp only [hpos, if_true, Option.some.injEq] at h
    exact ⟨hpos, h⟩
  · simp only [hpos, if_false] at h
    exact Option.noConfusion h

/-- update_stats_with_config never touches the per-app table. -/
theorem update_stats_with_config_app (skb : Netd.SkBuff) (d : Nat) (key : Netd.StatsKey)
    (sel : Nat) (st : Netd.NetdState) :
    (Netd.update_stats_with_config skb d key sel st).app_uid_stats_map =
      st.app_uid_stats_map := by
  unfold Netd.update_stats_with_config
  split_ifs <;> rfl

/-- Resolving a plain Drop verdict leaves it a Drop. -/
theorem resolve_dns_exempt_drop (tag uid s : Nat) :
    (Netd.resolve_dns_exempt tag uid s Netd.BPF_DROP).2 = Netd.BPF_DROP := by
  unfold Netd.resolve_dns_exempt
  split_ifs <;> first | rfl | exact absurd (by assumption) (by decide)

/-! ## The claims -/

/-- Claim C1: the stats aggregator's MTU-based packetization correction:
a byte length at most 1500 is recorded as-is with packet count 1; beyond
1500 it uses overhead = (20 for IPv4 or 40 for IPv6) + 20 + 12, mss =
1500 - overhead, payload = length - overhead, packets = ceil(payload /
mss), bytes = overhead * packets + payload; for IPv4 and byte length 3000
it records 3104 bytes and 3 packets. -/
theorem claim_C1 (is_ipv6 : Bool) (len : Nat) :
    (len ≤ 1500 → Netd.mtuAdjust is_ipv6 len = (1, len)) ∧
    (len > 1500 →
      Netd.mtuAdjust is_ipv6 len =
        (let overhead : Nat := (if is_ipv6 then 40 else 20) + 20 + 12
         let mss : Nat := 1500 - overhead
         let payload : Nat := len - overhead
         let packets : Nat := payload ⌈/⌉ mss
         (packets, overhead * packets + payload))) ∧
    Netd.mtuAdjust false 3000 = (3, 3104) := by
  refine ⟨fun h => ?_, fun h => ?_, by decide⟩
  · unfold Netd.mtuAdjust
    rw [if_neg (by omega)]
  · unfold Netd.mtuAdjust
    rw [if_pos h]
    cases is_ipv6 <;> rfl

/-- Witness for C1: both regimes evaluated over IPv6, at lengths 1400 and
3000. -/
theorem claim_C1_witness :
    Netd.mtuAdjust true 1400 = (1, 1400) ∧ Netd.mtuAdjust true 3000 = (3, 3144) :=
  ⟨(claim_C1 true 1400).1 (by decide),
   ((claim_C1 true 3000).2.1 (by decide)).trans (by decide)⟩

/-- Claim C4: for a non-exempt packet and a non-system uid, the evaluator
returns Drop exactly when an allow-list-style category is enabled globally
while the owner lacks its bit, or a deny-list-style category is enabled
globally while the owner has its bit; with no such category firing and no
interface/lockdown condition it returns Pass. -/
theorem claim_C4 (skb : Netd.SkBuff) (uid : Nat) (cfg : Nat → Option Nat)
    (uidEntry : Option Netd.UidOwnerValue) (direction : Nat)
    (hskip : Netd.skip_owner_match skb = false)
    (hsys : ¬ Netd.is_system_uid uid) :
    (Netd.bpf_owner_match skb uid cfg uidEntry direction = Netd.BPF_DROP ↔
      Netd.dropCondition (Netd.getConfig cfg Netd.UID_RULES_CONFIGURATION_KEY)
        (Netd.uidRulesOf uidEntry)) ∧
    (¬ Netd.dropCondition (Netd.getConfig cfg Netd.UID_RULES_CONFIGURATION_KEY)
        (Netd.uidRulesOf uidEntry) →
      ¬ Netd.iifApplies skb (Netd.uidRulesOf uidEntry) (Netd.allowedIifOf uidEntry) direction →
      Netd.bpf_owner_match skb uid cfg uidEntry direction = Netd.BPF_PASS) := by
  have hspec := bpf_owner_match_spec skb uid cfg uidEntry direction hskip hsys
  constructor
  · rw [hspec]
    by_cases hd : Netd.dropCondition (Netd.getConfig cfg Netd.UID_RULES_CONFIGURATION_KEY)
        (Netd.uidRulesOf uidEntry)
    · simp [hd]
    · rw [if_neg hd, iif_section_spec]
      constructor
      · intro hv
        exfalso
        revert hv
        split_ifs <;> decide
      · intro hv
        exact absurd hv hd
  · intro hnd hniif
    rw [hspec, if_neg hnd, iif_section_spec, if_neg hniif]

/-- Witness for C4: DOZABLE enabled with the owner lacking the bit drops;
STANDBY enabled with the owner holding the bit drops. -/
theorem claim_C4_witness :
    Netd.bpf_owner_match skbW 10001 cfgW none 0 = Netd.BPF_DROP ∧
    Netd.bpf_owner_match skbW 10001 cfgStandbyW (some ⟨0, 4⟩) 0 = Netd.BPF_DROP :=
  ⟨((claim_C4 skbW 10001 cfgW none 0 rfl (by decide)).1).mpr (by decide),
   ((claim_C4 skbW 10001 cfgStandbyW (some ⟨0, 4⟩) 0 rfl (by decide)).1).mpr (by decide)⟩

/-- Claim C5: for ingress off loopback, a non-system owner not dropped by a
restriction category: the interface-restriction bit with a non-zero allowed
interface different from the observed one yields DropUnlessExempt; allowed
interface 0 is a wildcard and passes; without the interface bit, the
lockdown-VPN bit alone yields DropUnlessExempt; and the caller resolves
DropUnlessExempt to Pass exactly for the platform's own DNS resolution
traffic and to Drop in every other case. -/
theorem claim_C5 (skb : Netd.SkBuff) (uid : Nat) (cfg : Nat → Option Nat)
    (uidEntry : Option Netd.UidOwnerValue)
    (hskip : Netd.skip_owner_match skb = false)
    (hsys : ¬ Netd.is_system_uid uid)
    (hnd : ¬ Netd.dropCondition (Netd.getConfig cfg Netd.UID_RULES_CONFIGURATION_KEY)
      (Netd.uidRulesOf uidEntry))
    (hlo : skb.ifindex ≠ 1) :
    (Netd.uidRulesOf uidEntry &&& Netd.IIF_MATCH ≠ 0 →
      Netd.allowedIifOf uidEntry ≠ 0 → skb.ifindex ≠ Netd.allowedIifOf uidEntry →
      Netd.bpf_owner_match skb uid cfg uidEntry Netd.BPF_INGRESS = Netd.BPF_DROP_UNLESS_DNS) ∧
    (Netd.uidRulesOf uidEntry &&& Netd.IIF_MATCH ≠ 0 →
      Netd.allowedIifOf uidEntry = 0 →
      Netd.bpf_owner_match skb uid cfg uidEntry Netd.BPF_INGRESS = Netd.BPF_PASS) ∧
    (Netd.uidRulesOf uidEntry &&& Netd.IIF_MATCH = 0 →
      Netd.uidRulesOf uidEntry &&& Netd.LOCKDOWN_VPN_MATCH ≠ 0 →
      Netd.bpf_owner_match skb uid cfg uidEntry Netd.BPF_INGRESS = Netd.BPF_DROP_UNLESS_DNS) ∧
    (∀ tag u s, (Netd.resolve_dns_exempt tag u s Netd.BPF_DROP_UNLESS_DNS).2 =
      if tag = Netd.TAG_SYSTEM_DNS ∧ u = Netd.AID_DNS then Netd.BPF_PASS else Netd.BPF_DROP) := by
  have hspec := bpf_owner_match_spec skb uid cfg uidEntry Netd.BPF_INGRESS hskip hsys
  rw [hspec, if_neg hnd, iif_section_spec]
  refine ⟨fun hi ha hne => ?_, fun hi ha => ?_, fun hi hl => ?_, fun tag u s => ?_⟩
  · exact if_pos ⟨rfl, hlo, Or.inl ⟨hi, ha, hne⟩⟩
  · refine if_neg fun hd => ?_
    simp only [Netd.iifApplies] at hd
    rcases hd with ⟨-, -, ⟨-, ha2, -⟩ | ⟨hi2, -⟩⟩
    · exact ha2 ha
    · exact hi hi2
  · exact if_pos ⟨rfl, hlo, Or.inr ⟨hi, hl⟩⟩
  · unfold Netd.resolve_dns_exempt
    split_ifs <;> first | rfl | exact absurd rfl (by assumption)

/-- Witness for C5: interface restriction to interface 7 observed on
interface 5 yields DropUnlessExempt, and the caller collapses it to Drop
for non-DNS traffic. -/
theorem claim_C5_witness :
    Netd.bpf_owner_match skbW 10001 (fun _ => none) (some ⟨7, 128⟩) Netd.BPF_INGRESS =
      Netd.BPF_DROP_UNLESS_DNS ∧
    (Netd.resolve_dns_exempt 0 10001 10001 Netd.BPF_DROP_UNLESS_DNS).2 = Netd.BPF_DROP :=
  ⟨(claim_C5 skbW 10001 (fun _ => none) (some ⟨7, 128⟩) rfl (by decide) (by decide) (by decide)).1
      (by decide) (by decide) (by decide),
   ((claim_C5 skbW 10001 (fun _ => none) (some ⟨7, 128⟩) rfl (by decide) (by decide) (by decide)).2.2.2
      0 10001 10001).trans (by decide)⟩

/-- Claim C8: a missing global configuration entry reads as all
restrictions disabled, so the evaluator passes absent interface/lockdown
conditions; a missing owner entry reads as a zero rule bitmask with
wildcard (0) allowed interface. -/
theorem claim_C8 (skb : Netd.SkBuff) (uid direction : Nat)
    (uidEntry : Option Netd.UidOwnerValue)
    (hskip : Netd.skip_owner_match skb = false)
    (hsys : ¬ Netd.is_system_uid uid)
    (hniif : ¬ Netd.iifApplies skb (Netd.uidRulesOf uidEntry)
      (Netd.allowedIifOf uidEntry) direction) :
    Netd.getConfig (fun _ => none) Netd.UID_RULES_CONFIGURATION_KEY = 0 ∧
    Netd.uidRulesOf none = 0 ∧ Netd.allowedIifOf none = 0 ∧
    Netd.bpf_owner_match skb uid (fun _ => none) uidEntry direction = Netd.BPF_PASS := by
  refine ⟨rfl, rfl, rfl, ?_⟩
  rw [bpf_owner_match_spec skb uid (fun _ => none) uidEntry direction hskip hsys,
    if_neg (by simp [Netd.getConfig, Netd.DEFAULT_CONFIG, Netd.dropCondition, Nat.zero_and]),
    iif_section_spec, if_neg hniif]

/-- Witness for C8: everything-missing configuration passes a plain
application uid on egress. -/
theorem claim_C8_witness :
    Netd.getConfig (fun _ => none) Netd.UID_RULES_CONFIGURATION_KEY = 0 ∧
    Netd.bpf_owner_match skbW 10001 (fun _ => none) none Netd.BPF_EGRESS = Netd.BPF_PASS :=
  ⟨(claim_C8 skbW 10001 Netd.BPF_EGRESS none rfl (by decide) (by decide)).1,
   (claim_C8 skbW 10001 Netd.BPF_EGRESS none rfl (by decide) (by decide)).2.2.2⟩

/-- Claim C9: an ESP packet, or a TCP segment with the RST flag set, makes
the owner-match evaluation return Pass for every uid, configuration and
owner entry: the exemption is decided before the system-uid carve-out and
without consulting either bitmask. -/
theorem claim_C9 (skb : Netd.SkBuff) (uid : Nat) (cfg : Nat → Option Nat)
    (uidEntry : Option Netd.UidOwnerValue) (direction : Nat)
    (h : Netd.isEspOrTcpRst skb) :
    Netd.bpf_owner_match skb uid cfg uidEntry direction = Netd.BPF_PASS := by
  unfold Netd.bpf_owner_match
  rw [skip_of_espOrTcpRst skb h]
  rfl

/-- Witness for C9: an IPv4 ESP packet passes even for an owner that every
enabled restriction would drop. -/
theorem claim_C9_witness :
    Netd.bpf_owner_match skbEspW 10001 cfgW none 0 = Netd.BPF_PASS :=
  claim_C9 skbEspW 10001 cfgW none 0 (Or.inl ⟨rfl, rfl⟩)

/-- Claim C2: a selected rule is eligible and carries the strictly highest
score among the eligible rules, and on equal scores the selected rule has
the lowest table index (first-wins under the strict greater-than of the
in-order scan); moreover some rule is selected whenever an eligible rule
exists. -/
theorem claim_C2 (tbl : Nat → Option Dscp.DscpPolicy) (n : Nat) (t : Dscp.FlowTuple) :
    (∀ i, Dscp.match_policy_scan tbl n t = some i →
      i < n ∧ Dscp.eligibleRule tbl t i ∧
      (∀ j, j < n → Dscp.eligibleRule tbl t j →
        Dscp.scoreOf tbl t j ≤ Dscp.scoreOf tbl t i) ∧
      (∀ j, j < n → Dscp.eligibleRule tbl t j →
        Dscp.scoreOf tbl t j = Dscp.scoreOf tbl t i → i ≤ j)) ∧
    (∀ j, j < n → Dscp.eligibleRule tbl t j →
      ∃ i, Dscp.match_policy_scan tbl n t = some i) := by
  constructor
  · intro i h
    obtain ⟨hpos, hi⟩ := match_policy_scan_some tbl n t i h
    rcases scanInv_holds tbl t n with ⟨h1, -⟩ | ⟨h1, h2, h3, h4, h5⟩
    · rw [h1] at hpos
      exact absurd hpos (by decide)
    · rw [hi] at h1 h2 h4 h5
      exact ⟨h1, h2, h4, h5⟩
  · intro j hj hel
    rcases scanInv_holds tbl t n with ⟨-, h2⟩ | ⟨-, h2, h3, -, -⟩
    · exact absurd hel (h2 j hj)
    · obtain ⟨p, hp, he1, -, he3⟩ := h2
      have hpos := eligible_score_pos p t he1 he3
      have hsc : Dscp.scoreOf tbl t (Dscp.scanAux tbl t n).2 = (Dscp.scoreAndMask p t).1 := by
        unfold Dscp.scoreOf
        rw [hp]
      refine ⟨(Dscp.scanAux tbl t n).2, ?_⟩
      unfold Dscp.match_policy_scan
      rw [if_pos]
      rw [h3, hsc]
      omega

/-- Witness for C2: two tied rules at indices 0 and 1; the scan selects
index 0 and the theorem reports it eligible and maximal. -/
theorem claim_C2_witness :
    Dscp.match_policy_scan tblW 2 tW = some 0 ∧
    Dscp.eligibleRule tblW tW 0 ∧ (0 : Nat) ≤ 1 :=
  ⟨by decide,
   ((claim_C2 tblW 2 tW).1 0 (by decide)).2.1,
   ((claim_C2 tblW 2 tW).1 0 (by decide)).2.2.2 1 (by decide)
     ⟨ruleW2, rfl, by decide⟩ (by decide)⟩

/-- Claim C3: a selected rule always has a nonzero present-fields mask and
its matched predicates equal exactly its declared-present predicates; a
rule matching only a proper subset of its declared fields is never
selected, whatever its internally computed score. -/
theorem claim_C3 (tbl : Nat → Option Dscp.DscpPolicy) (n : Nat) (t : Dscp.FlowTuple)
    (i : Nat) (h : Dscp.match_policy_scan tbl n t = some i) :
    ∀ policy, tbl i = some policy →
      policy.present_fields ≠ 0 ∧
      (Dscp.scoreAndMask policy t).2 = policy.present_fields := by
  intro policy hpol
  obtain ⟨hpos, hi⟩ := match_policy_scan_some tbl n t i h
  rcases scanInv_holds tbl t n with ⟨h1, -⟩ | ⟨-, h2, -, -, -⟩
  · rw [h1] at hpos
    exact absurd hpos (by decide)
  · rw [hi] at h2
    obtain ⟨p, hp, he1, -, he3⟩ := h2
    rw [hpol] at hp
    cases hp
    exact ⟨he1, he3⟩

/-- Witness for C3: the selected rule of the concrete table has a nonzero
mask that is fully matched. -/
theorem claim_C3_witness :
    ruleW.present_fields ≠ 0 ∧ (Dscp.scoreAndMask ruleW tW).2 = ruleW.present_fields :=
  claim_C3 tblW 2 tW 0 (by decide) ruleW (by decide)

/-- Claim C6: a cached decision whose stored tuple differs from the current
packet's tuple in any field is treated as a miss: the cached dscp value is
never applied and the full rule-table matching runs instead. -/
theorem claim_C6 (e : Dscp.RuleEntry) (tbl : Nat → Option Dscp.DscpPolicy)
    (n : Nat) (t : Dscp.FlowTuple)
    (h : e.src_ip ≠ t.src_ip ∨ e.dst_ip ≠ t.dst_ip ∨ t.ifindex ≠ e.ifindex ∨
      t.sport ≠ e.src_port ∨ t.dport ≠ e.dst_port ∨ t.protocol ≠ e.proto) :
    Dscp.match_policy_decision (some e) tbl n t = Dscp.full_match_dscp tbl n t := by
  show (if Dscp.cacheMatches e t then some e.dscp_val else Dscp.full_match_dscp tbl n t) =
    Dscp.full_match_dscp tbl n t
  rw [if_neg]
  rintro ⟨m1, m2, m3, m4, m5, m6⟩
  rcases h with hc | hc | hc | hc | hc | hc
  exacts [hc m1, hc m2, hc m3, hc m4, hc m5, hc m6]

/-- Witness for C6: a stale entry for tuple tW queried with t2W (same
socket, different destination port) falls through to the scan. -/
theorem claim_C6_witness :
    Dscp.match_policy_decision (some entryW) tblW 2 t2W = Dscp.full_match_dscp tblW 2 t2W :=
  claim_C6 entryW tblW 2 t2W (by decide)

/-- Claim C7: extraction reports a malformed packet exactly when a header
does not fit in the captured bytes, the IP version field mismatches the
declared family, or an IPv4 header carries options; a well-formed packet of
any transport other than UDP, UDP-Lite or TCP gets the benign
not-applicable outcome. -/
theorem claim_C7 (pkt : Dscp.PacketData) (ipv4 is_eth : Bool) (ifindex : Nat) :
    (Dscp.extract pkt ipv4 is_eth ifindex = Dscp.ExtractResult.malformed ↔
      Dscp.malformedCond pkt ipv4 is_eth) ∧
    (Dscp.l3_ok pkt ipv4 is_eth →
      pkt.protocol ≠ Dscp.IPPROTO_UDP → pkt.protocol ≠ Dscp.IPPROTO_UDPLITE →
      pkt.protocol ≠ Dscp.IPPROTO_TCP →
      Dscp.extract pkt ipv4 is_eth ifindex = Dscp.ExtractResult.notApplicable) := by
  constructor
  · cases ipv4 <;> cases is_eth <;>
      (simp only [Dscp.extract, Dscp.extract_l4, Dscp.malformedCond, Dscp.l3_ok, Dscp.hdrSize,
         Dscp.IPPROTO_UDP, Dscp.IPPROTO_UDPLITE, Dscp.IPPROTO_TCP, if_true, if_false,
         Bool.false_eq_true, ite_true, ite_false]
       split_ifs <;> simp_all <;> omega)
  · intro h1 h2 h3 h4
    cases ipv4 <;> cases is_eth <;>
      (simp only [Dscp.extract, Dscp.extract_l4, if_true, if_false, Bool.false_eq_true,
         ite_true, ite_false]
       split_ifs <;>
         simp_all [Dscp.l3_ok, Dscp.hdrSize, Dscp.IPPROTO_UDP, Dscp.IPPROTO_UDPLITE,
           Dscp.IPPROTO_TCP] <;> omega)

/-- Witness for C7: a well-formed IPv4 ICMP frame is not applicable, and a
truncated one is malformed. -/
theorem claim_C7_witness :
    Dscp.extract pktW true true 3 = Dscp.ExtractResult.notApplicable ∧
    Dscp.extract { pktW with len := 20 } true true 3 = Dscp.ExtractResult.malformed :=
  ⟨(claim_C7 pktW true true 3).2 (by decide) (by decide) (by decide) (by decide),
   ((claim_C7 { pktW with len := 20 } true true 3).1).mpr (by decide)⟩

/-- Claim C10: an egress packet whose owner evaluation is Drop makes the
accounting function return the drop verdict with every statistics table
unchanged; an ingress packet whose owner evaluation is Drop is still
recorded in the per-app table before the drop verdict is returned. -/
theorem claim_C10 (skb : Netd.SkBuff) (sock_uid : Nat)
    (cookie_tag : Option Netd.UidTagValue)
    (cfg : Nat → Option Nat) (uom : Nat → Option Netd.UidOwnerValue)
    (ucm : Nat → Option Nat) (st : Netd.NetdState)
    (hclat1 : sock_uid ≠ Netd.AID_CLAT)
    (hclat2 : Netd.cookieUid sock_uid cookie_tag ≠ Netd.AID_CLAT) :
    (Netd.bpf_owner_match skb sock_uid cfg (uom sock_uid) Netd.BPF_EGRESS = Netd.BPF_DROP →
      Netd.bpf_traffic_account skb Netd.BPF_EGRESS sock_uid cookie_tag cfg uom ucm st =
        (Netd.BPF_DROP, st)) ∧
    (∀ sel uidAcct, cfg Netd.CURRENT_STATS_MAP_CONFIGURATION_KEY = some sel →
      uidAcct = (Netd.resolve_dns_exempt (Netd.cookieTag cookie_tag)
        (Netd.cookieUid sock_uid cookie_tag) sock_uid Netd.BPF_DROP).1 →
      Netd.bpf_owner_match skb sock_uid cfg (uom sock_uid) Netd.BPF_INGRESS = Netd.BPF_DROP →
      (Netd.bpf_traffic_account skb Netd.BPF_INGRESS sock_uid cookie_tag cfg uom ucm st).1 =
        Netd.BPF_DROP ∧
      (Netd.bpf_traffic_account skb Netd.BPF_INGRESS sock_uid cookie_tag cfg uom ucm
          st).2.app_uid_stats_map =
        Netd.update_stats st.app_uid_stats_map (skb.protocol = Netd.ETH_P_IPV6) skb.len
          Netd.BPF_INGRESS uidAcct) := by
  have hOr : ¬ (sock_uid = Netd.AID_CLAT ∨
      Netd.cookieUid sock_uid cookie_tag = Netd.AID_CLAT) :=
    fun hc => hc.elim hclat1 hclat2
  constructor
  · intro hdrop
    simp only [Netd.bpf_traffic_account]
    rw [if_neg hOr, hdrop, if_pos (⟨trivial, rfl⟩ : True ∧ Netd.BPF_DROP = Netd.BPF_DROP)]
  · intro sel uidAcct hsel huid hdrop
    simp only [Netd.bpf_traffic_account]
    rw [if_neg hOr, hdrop, if_neg (fun hc => absurd hc.1 (by decide)), hsel]
    simp only [resolve_dns_exempt_drop, update_stats_with_config_app,
      apply_ite (fun s : Netd.NetdState => s.app_uid_stats_map), ite_self, huid]
    exact ⟨by decide, trivial⟩

/-- Witness for C10: with DOZABLE enabled and a plain application uid, the
egress drop leaves the empty state unchanged, and the ingress drop records
the packet in the per-app table. -/
theorem claim_C10_witness :
    Netd.bpf_traffic_account skbW Netd.BPF_EGRESS 10001 none cfgW uomW ucmW st0 =
      (Netd.BPF_DROP, st0) ∧
    (Netd.bpf_traffic_account skbW Netd.BPF_INGRESS 10001 none cfgW uomW ucmW st0).2.app_uid_stats_map =
      Netd.update_stats st0.app_uid_stats_map false 100 Netd.BPF_INGRESS 10001 :=
  ⟨(claim_C10 skbW 10001 none cfgW uomW ucmW st0 (by decide) (by decide)).1 rfl,
   ((claim_C10 skbW 10001 none cfgW uomW ucmW st0 (by decide) (by decide)).2
      0 10001 rfl (by decide) rfl).2⟩
